import Mathlib

/-!
Verification of the serial label-printer bridge `bt_printer.py` from the
PrintToBTLabel repository.

The Python module is shallowly embedded:

* The bitmap encoder of `BluetoothPrinter.print_image_tspl`
  (bt_printer.py:818-839) becomes `bitmap_byte` / `bitmap_data`, with a
  pixel buffer modelled as a function `Nat → Nat → Nat` (PIL mode-`'1'`
  images store 0 for black and 255 for white; the encoder only tests
  equality with 0).
* The connection lifecycle (`connect` / `disconnect` / `is_connected` /
  `send_raw` / `send_text`, bt_printer.py:61-159) becomes explicit state
  passing over `PrinterState`.  The serial transport is modelled by an
  open-attempt oracle `openOk` and a write-failure oracle `failAt`
  (`failAt i = true` means the i-th `connection.write` raises
  `SerialException`, which the Python code catches).
* Label text is modelled as `List Char`; Python's `str.split('\n')`,
  `str.replace('"', '\\"')` and `str.strip()` truthiness become the
  structural functions `splitNL`, `escapeQuotes` and `hasInk` below.
* Python's `int(x)` on a non-negative float of exact rational value `q`
  becomes `pyInt q` (truncation toward zero); the float literal `25.4`
  is modelled by the exact rational `254/10`, all values involved being
  far from integer boundaries.
* PIL calls whose numerics the claims do not inspect (`Image.new`,
  `paste`, `crop`, `resize`) are deep-embedded as the constructors of
  `PImage`, so that which operations `print_pdf` composes, and with which
  arguments, is still fully captured.
-/

set_option autoImplicit false

namespace PrintToBT

/-! ### Bitmap encoder (`BluetoothPrinter.print_image_tspl`, bt_printer.py:818-839) -/

/-- Bytes per bitmap row: `width_bytes = (width + 7) // 8` (bt_printer.py:819). -/
def width_bytes (width : Nat) : Nat := (width + 7) / 8

/-- One packed byte of the TSPL bitmap payload, faithful to the inner loops at
bt_printer.py:830-839: for `bit` in `0..7`, if `pixel_x = byte_col*8 + bit`
is inside the row and the pixel is black (PIL value 0), OR in `1 << (7-bit)`. -/
def bitmap_byte (px : Nat → Nat → Nat) (width row byteCol : Nat) : Nat :=
  (List.range 8).foldl
    (fun byteVal bit =>
      if byteCol * 8 + bit < width ∧ px (byteCol * 8 + bit) row = 0 then
        byteVal ||| (1 <<< (7 - bit))
      else byteVal) 0

/-- Value contributed by one bit position in the specification reading of the
packing: most-significant bit first, bit set exactly for an in-row ink pixel. -/
def ink_bit (px : Nat → Nat → Nat) (width row byteCol bit : Nat) : Nat :=
  if byteCol * 8 + bit < width ∧ px (byteCol * 8 + bit) row = 0 then 2 ^ (7 - bit) else 0

/-- Specification-side byte value (spec §4.4): the sum of the eight bit
contributions, MSB first. -/
def bitmap_byte_spec (px : Nat → Nat → Nat) (width row byteCol : Nat) : Nat :=
  ink_bit px width row byteCol 0 + ink_bit px width row byteCol 1 +
  ink_bit px width row byteCol 2 + ink_bit px width row byteCol 3 +
  ink_bit px width row byteCol 4 + ink_bit px width row byteCol 5 +
  ink_bit px width row byteCol 6 + ink_bit px width row byteCol 7

/-- Row-major bitmap payload (outer loops at bt_printer.py:829-839). -/
def bitmap_data (px : Nat → Nat → Nat) (width height : Nat) : List Nat :=
  (List.range height).flatMap (fun row =>
    (List.range (width_bytes width)).map (fun byteCol => bitmap_byte px width row byteCol))

set_option maxHeartbeats 3000000 in
theorem bitmap_byte_eq_spec (px : Nat → Nat → Nat) (w row c : Nat) :
    bitmap_byte px w row c = bitmap_byte_spec px w row c := by
  have hr : List.range 8 = [0, 1, 2, 3, 4, 5, 6, 7] := by decide
  unfold bitmap_byte bitmap_byte_spec ink_bit
  rw [hr]
  simp only [List.foldl]
  by_cases h0 : c * 8 + 0 < w ∧ px (c * 8 + 0) row = 0 <;>
  by_cases h1 : c * 8 + 1 < w ∧ px (c * 8 + 1) row = 0 <;>
  by_cases h2 : c * 8 + 2 < w ∧ px (c * 8 + 2) row = 0 <;>
  by_cases h3 : c * 8 + 3 < w ∧ px (c * 8 + 3) row = 0 <;>
  by_cases h4 : c * 8 + 4 < w ∧ px (c * 8 + 4) row = 0 <;>
  by_cases h5 : c * 8 + 5 < w ∧ px (c * 8 + 5) row = 0 <;>
  by_cases h6 : c * 8 + 6 < w ∧ px (c * 8 + 6) row = 0 <;>
  by_cases h7 : c * 8 + 7 < w ∧ px (c * 8 + 7) row = 0 <;>
  simp only [h0, h1, h2, h3, h4, h5, h6, h7, if_true, if_false, ite_true, ite_false] <;>
  decide

theorem bitmap_data_succ (px : Nat → Nat → Nat) (w h : Nat) :
    bitmap_data px w (h + 1) =
      bitmap_data px w h ++
        (List.range (width_bytes w)).map (fun byteCol => bitmap_byte px w h byteCol) := by
  unfold bitmap_data
  rw [List.range_succ, List.flatMap_append]
  simp

theorem bitmap_data_length (px : Nat → Nat → Nat) (w h : Nat) :
    (bitmap_data px w h).length = width_bytes w * h := by
  induction h with
  | zero => simp [bitmap_data]
  | succ n ih =>
      rw [bitmap_data_succ, List.length_append, ih, List.length_map, List.length_range]
      ring

theorem bitmap_data_get (px : Nat → Nat → Nat) (w h row col : Nat)
    (hrow : row < h) (hcol : col < width_bytes w) :
    (bitmap_data px w h)[row * width_bytes w + col]? = some (bitmap_byte px w row col) := by
  induction h with
  | zero => omega
  | succ n ih =>
      rw [bitmap_data_succ, List.getElem?_append]
      rw [bitmap_data_length]
      by_cases hr : row < n
      · have hlt : row * width_bytes w + col < width_bytes w * n := by
          have e1 : (row + 1) * width_bytes w = row * width_bytes w + width_bytes w := by ring
          have e2 : width_bytes w * n = n * width_bytes w := by ring
          have e3 : (row + 1) * width_bytes w ≤ n * width_bytes w :=
            Nat.mul_le_mul_right _ (by omega)
          omega
        rw [if_pos hlt]
        exact ih hr
      · have hrn : row = n := by omega
        subst hrn
        have hge : ¬ row * width_bytes w + col < width_bytes w * row := by
          have e2 : width_bytes w * row = row * width_bytes w := by ring
          omega
        rw [if_neg hge]
        have e2 : width_bytes w * row = row * width_bytes w := by ring
        have : row * width_bytes w + col - width_bytes w * row = col := by omega
        rw [this, List.getElem?_map, List.getElem?_range hcol]
        rfl

/-! ### Label geometry (`print_pdf`, bt_printer.py:456-457) -/

/-- Python `int()` applied to an exact rational: truncation toward zero. -/
def pyInt (q : ℚ) : ℤ := q.num.tdiv q.den

/-- Target dot count for one axis: `int(mm * dpi / 25.4)` (bt_printer.py:456-457).
The float literal `25.4` is modelled by the exact rational `254/10`; the
concrete values the claims touch are far from integer boundaries, so the
IEEE-double computation and the exact one truncate identically. -/
def target_dots (mm dpi : ℤ) : ℤ := pyInt ((mm : ℚ) * (dpi : ℚ) / (254 / 10))

/-- Modelled from the spec: "target dot dimensions derived as
round(mm · dpi / 25.4)" (spec §3, LabelSpec). -/
def target_dots_round (mm dpi : ℤ) : ℤ := round ((mm : ℚ) * (dpi : ℚ) / (254 / 10))

theorem pyInt_eq_floor (q : ℚ) (h : 0 ≤ q) : pyInt q = ⌊q⌋ := by
  rw [Rat.floor_def, pyInt, Int.tdiv_eq_ediv (Rat.num_nonneg.mpr h) (by positivity)]

theorem target_dots_101_203 : target_dots 101 203 = 807 := by
  unfold target_dots
  rw [pyInt_eq_floor _ (by norm_num), Int.floor_eq_iff]
  norm_num

theorem target_dots_152_203 : target_dots 152 203 = 1214 := by
  unfold target_dots
  rw [pyInt_eq_floor _ (by norm_num), Int.floor_eq_iff]
  norm_num

/-! ### Text label commands (`print_label_tspl`, bt_printer.py:280-351) -/

/-- Python `text.split('\n')` on the character list of the text. -/
def splitNL : List Char → List (List Char)
  | [] => [[]]
  | c :: cs =>
    let r := splitNL cs
    if c = '\n' then [] :: r
    else
      match r with
      | [] => [[c]]
      | line :: rest => (c :: line) :: rest

/-- Python `line.replace('"', '\\"')` (bt_printer.py:335). -/
def escapeQuotes : List Char → List Char
  | [] => []
  | c :: cs => if c = '\"' then '\\' :: '\"' :: escapeQuotes cs else c :: escapeQuotes cs

/-- ASCII whitespace as stripped by Python `str.strip()` (the claims involve
only ASCII text; Python additionally strips other Unicode whitespace). -/
def isPySpace (c : Char) : Bool :=
  c = ' ' || c = '\t' || c = '\n' || c = '\r' || c = '\x0b' || c = '\x0c'

/-- Truthiness of `line.strip()` in the guard at bt_printer.py:333: the
stripped line is non-empty iff some character is not whitespace. -/
def keepLine (line : List Char) : Bool := line.any (fun c => ! isPySpace c)

/-- Decimal digits of a number, as written by f-string interpolation. -/
def natChars (n : Nat) : List Char := (Nat.repr n).data

/-- Characters of a string literal. -/
def chars (s : String) : List Char := s.data

/-- One TEXT command line,
`TEXT {x},{current_y},"{font}",0,1,1,"{escaped_text}"` plus the terminating
LF (bt_printer.py:336). -/
def text_line (font : List Char) (x cy : Nat) (line : List Char) : List Char :=
  chars "TEXT " ++ natChars x ++ [','] ++ natChars cy ++ [',', '\"'] ++ font ++
    chars "\",0,1,1,\"" ++ escapeQuotes line ++ ['\"', '\n']

/-- Accumulating loop over the split lines (bt_printer.py:331-337): kept lines
emit a TEXT line and advance `current_y` by 40; skipped lines advance nothing. -/
def tspl_text_body (font : List Char) (x : Nat) : List (List Char) → Nat → List Char
  | [], _ => []
  | line :: rest, cy =>
    if keepLine line then text_line font x cy line ++ tspl_text_body font x rest (cy + 40)
    else tspl_text_body font x rest cy

/-- Full TSPL text-label command (bt_printer.py:325-341): the Python code
accumulates one string with `+=`; concatenation is associated accordingly. -/
def print_label_tspl_cmd (text : List Char) (labelW labelH gap : Nat)
    (font : List Char) (x y : Nat) : List Char :=
  chars "SIZE " ++ natChars labelW ++ chars " mm, " ++ natChars labelH ++ chars " mm\n" ++
  chars "GAP " ++ natChars gap ++ chars " mm, 0 mm\n" ++
  chars "DIRECTION 1\n" ++ chars "CLS\n" ++
  tspl_text_body font x (splitNL text) y ++
  chars "PRINT 1\n" ++ chars "\n"

/-- Specification-side TEXT block: the i-th emitted line sits at vertical
position `y + 40 * i`. -/
def spec_text_block (font : List Char) (x y : Nat) (ls : List (List Char)) : List Char :=
  ((List.range ls.length).map
    (fun i => text_line font x (y + 40 * i) (ls.getD i []))).foldr (· ++ ·) []

theorem spec_text_block_cons (font : List Char) (x y : Nat) (l : List Char)
    (ls : List (List Char)) :
    spec_text_block font x y (l :: ls) =
      text_line font x y l ++ spec_text_block font x (y + 40) ls := by
  unfold spec_text_block
  rw [List.length_cons, List.range_succ_eq_map]
  simp only [List.map_cons, List.map_map, List.foldr_cons]
  congr 1
  congr 1
  apply List.map_congr_left
  intro i hi
  simp only [Function.comp_apply, Nat.succ_eq_add_one, List.getD_cons_succ]
  have harith : y + 40 * (i + 1) = y + 40 + 40 * i := by ring
  rw [harith]

theorem tspl_text_body_eq (font : List Char) (x : Nat) (ls : List (List Char)) :
    ∀ y, tspl_text_body font x ls y = spec_text_block font x y (ls.filter keepLine) := by
  induction ls with
  | nil => intro y; simp [tspl_text_body, spec_text_block]
  | cons l t ih =>
      intro y
      unfold tspl_text_body
      by_cases hk : keepLine l = true
      · rw [if_pos hk, List.filter_cons_of_pos hk, spec_text_block_cons, ih (y + 40)]
      · rw [if_neg hk, List.filter_cons_of_neg (by simpa using hk), ih y]

/-! ### Connection lifecycle (bt_printer.py:61-141) -/

/-- Payload of one successful serial write: the code distinguishes text writes
(`send_text`, which encodes and delegates to `send_raw`) from raw binary
writes; keeping the distinction makes the orchestration order observable. -/
inductive Payload where
  | text (s : List Char)
  | bin (b : List Nat)
deriving DecidableEq

/-- State of one `BluetoothPrinter` object together with its modelled serial
transport.  `openOk i` tells whether the i-th `serial.Serial(...)` constructor
call yields an open port; `failAt i` tells whether the i-th
`connection.write(...)` raises `SerialException` (which `send_raw` catches);
`sent` records the successfully written payloads in order; `flushes` counts
`connection.flush()` calls. -/
structure PrinterState where
  connected : Bool
  opens : Nat
  openOk : Nat → Bool
  attempts : Nat
  failAt : Nat → Bool
  sent : List Payload
  flushes : Nat

/-- `BluetoothPrinter.is_connected` (bt_printer.py:107-109): the handle exists
and is open. -/
def is_connected (s : PrinterState) : Bool := s.connected

/-- `BluetoothPrinter.connect` (bt_printer.py:61-98): a no-op success when the
handle is already open, otherwise one constructor call which either opens the
port or fails.  (The 0.5 s settle sleep has no observable effect here.) -/
def connect (s : PrinterState) : Bool × PrinterState :=
  if is_connected s then (true, s)
  else
    if s.openOk s.opens then (true, { s with connected := true, opens := s.opens + 1 })
    else (false, { s with opens := s.opens + 1 })

/-- `BluetoothPrinter.disconnect` (bt_printer.py:100-105): closes and clears
the handle if open, otherwise does nothing. -/
def disconnect (s : PrinterState) : PrinterState :=
  if is_connected s then { s with connected := false } else s

/-- Common body of `send_raw` (bt_printer.py:111-141): refuse when not
connected; otherwise write (which may raise, caught and turned into `False`)
and flush, returning `True`. -/
def write_payload (s : PrinterState) (p : Payload) : Bool × PrinterState :=
  if is_connected s then
    (if s.failAt s.attempts then (false, { s with attempts := s.attempts + 1 })
     else (true, { s with attempts := s.attempts + 1,
                          sent := s.sent ++ [p],
                          flushes := s.flushes + 1 }))
  else (false, s)

/-- `BluetoothPrinter.send_raw` (bt_printer.py:111-141). -/
def send_raw (s : PrinterState) (data : List Nat) : Bool × PrinterState :=
  write_payload s (Payload.bin data)

/-- `BluetoothPrinter.send_text` (bt_printer.py:143-159): encodes the text and
delegates to `send_raw`; modelled as a text payload. -/
def send_text (s : PrinterState) (t : List Char) : Bool × PrinterState :=
  write_payload s (Payload.text t)

/-- `BluetoothPrinter.print_label_tspl` (bt_printer.py:280-351): guard on the
connection, build the command, send it as one text write and return that
write's result. -/
def print_label_tspl (s : PrinterState) (text : List Char) (labelW labelH gap : Nat)
    (font : List Char) (x y : Nat) : Bool × PrinterState :=
  if ¬ is_connected s then (false, s)
  else send_text s (print_label_tspl_cmd text labelW labelH gap font x y)

/-- Header text sent before the bitmap payload (bt_printer.py:842-849):
`SIZE`/`GAP`/`DIRECTION 1`/`CLS` then the `BITMAP x,y,width_bytes,height,0,`
line with no terminator. -/
def bitmap_header_cmd (labelW labelH gap x y wbytes h : Nat) : List Char :=
  chars "SIZE " ++ natChars labelW ++ chars " mm, " ++ natChars labelH ++ chars " mm\n" ++
  chars "GAP " ++ natChars gap ++ chars " mm, 0 mm\n" ++
  chars "DIRECTION 1\n" ++ chars "CLS\n" ++
  chars "BITMAP " ++ natChars x ++ [','] ++ natChars y ++ [','] ++
    natChars wbytes ++ [','] ++ natChars h ++ chars ",0,"

/-- `BluetoothPrinter.print_image_tspl` (bt_printer.py:782-867): after the
connection guard, three sequential writes — header text, raw bitmap payload,
`PRINT` command — whose individual results the code discards, before returning
`True` (bt_printer.py:852-863). -/
def print_image_tspl (s : PrinterState) (px : Nat → Nat → Nat) (w h : Nat)
    (labelW labelH gap x y : Nat) : Bool × PrinterState :=
  if ¬ is_connected s then (false, s)
  else
    let s1 := (send_text s (bitmap_header_cmd labelW labelH gap x y (width_bytes w) h)).2
    let s2 := (send_raw s1 (bitmap_data px w h)).2
    let s3 := (send_text s2 (chars "PRINT 1\n\n")).2
    (true, s3)

/-- Connected state whose transport never fails. -/
def okState : PrinterState :=
  { connected := true, opens := 1, openOk := fun _ => true,
    attempts := 0, failAt := fun _ => false, sent := [], flushes := 0 }

/-- Connected state whose first write raises `SerialException`. -/
def failFirstWriteState : PrinterState :=
  { connected := true, opens := 1, openOk := fun _ => true,
    attempts := 0, failAt := fun i => i == 0, sent := [], flushes := 0 }

/-- Fresh, never-connected state with a healthy port. -/
def closedState : PrinterState :=
  { connected := false, opens := 0, openOk := fun _ => true,
    attempts := 0, failAt := fun _ => false, sent := [], flushes := 0 }

theorem write_payload_connected (s : PrinterState) (p : Payload) :
    (write_payload s p).2.connected = s.connected := by
  unfold write_payload is_connected
  split_ifs <;> rfl

/-! ### Manual crop on the working image (`print_pdf`, bt_printer.py:431-449) -/

/-- Rendering resolution of the working image (bt_printer.py:402). -/
def render_dpi : Nat := 300

/-- Scale factor applied to manual crop coordinates before the first crop:
`render_dpi / 150.0` (bt_printer.py:434); the preview supplies coordinates in
a 150-DPI reference space. -/
def crop_scale_factor : ℚ := (render_dpi : ℚ) / 150

/-- Rectangular crop region in pixel coordinates of a specific image. -/
structure CropBox where
  left : ℤ
  top : ℤ
  right : ℤ
  bottom : ℤ
deriving DecidableEq

/-- First manual-crop application (bt_printer.py:433-449): scale each
coordinate by `crop_scale_factor` via Python `int()`, clamp to the working
image bounds, and crop only when the clamped region still has positive area
(`none` means the image is left unchanged). -/
def manual_crop_scaled (c : ℤ × ℤ × ℤ × ℤ) (imgW imgH : Nat) : Option CropBox :=
  let l := pyInt ((c.1 : ℚ) * crop_scale_factor)
  let t := pyInt ((c.2.1 : ℚ) * crop_scale_factor)
  let r := pyInt ((c.2.2.1 : ℚ) * crop_scale_factor)
  let b := pyInt ((c.2.2.2 : ℚ) * crop_scale_factor)
  let lc := max 0 (min l (imgW : ℤ))
  let rc := max 0 (min r (imgW : ℤ))
  let tc := max 0 (min t (imgH : ℤ))
  let bc := max 0 (min b (imgH : ℤ))
  if rc > lc ∧ bc > tc then some ⟨lc, tc, rc, bc⟩ else none

/-- Which crop mode `print_pdf` runs on the working image. -/
inductive CropChoice where
  | manual (box : Option CropBox)
  | auto
  | keep
deriving DecidableEq

/-- Crop-mode selection (bt_printer.py:433-453): a supplied (truthy) manual
coordinate tuple takes precedence over `auto_crop`. -/
def crop_step (manualCoords : Option (ℤ × ℤ × ℤ × ℤ)) (autoCrop : Bool)
    (imgW imgH : Nat) : CropChoice :=
  match manualCoords with
  | some c => CropChoice.manual (manual_crop_scaled c imgW imgH)
  | none => if autoCrop then CropChoice.auto else CropChoice.keep

theorem pyInt_intCast (n : ℤ) : pyInt (n : ℚ) = n := by
  unfold pyInt
  rw [Rat.num_intCast, Rat.den_intCast]
  simp

/-- Scaling an integer coordinate by `300/150` is exact doubling. -/
theorem pyInt_double (n : ℤ) : pyInt ((n : ℚ) * crop_scale_factor) = 2 * n := by
  have hcast : (n : ℚ) * crop_scale_factor = ((2 * n : ℤ) : ℚ) := by
    unfold crop_scale_factor render_dpi
    push_cast
    ring
  rw [hcast, pyInt_intCast]

/-! ### Auto-rotate, scale-to-fit, centering (`print_pdf`, bt_printer.py:461-528) -/

/-- Grayscale raster with its pixel dimensions. -/
structure Raster where
  w : Nat
  h : Nat
  px : Nat → Nat → Nat

/-- PIL `image.rotate(90, expand=True)` (bt_printer.py:473): the canvas
expands to the rotated bounds, so the dimensions swap; the pixel map is the
90° counter-clockwise transposition. -/
def rotate90_expand (img : Raster) : Raster :=
  { w := img.h, h := img.w, px := fun i j => img.px (img.w - 1 - j) i }

/-- Orientation-mismatch test (bt_printer.py:468-471):
`img_is_landscape != label_is_landscape`. -/
def rotate_mismatch (imgW imgH tgtW tgtH : Nat) : Bool :=
  decide (imgW > imgH) != decide (tgtW > tgtH)

/-- Auto-rotate step (bt_printer.py:467-474): rotate only when auto-rotate is
enabled and the orientations differ; otherwise the image object is unchanged. -/
def auto_rotate_step (autoRotate : Bool) (img : Raster) (tgtW tgtH : Nat) : Raster :=
  if autoRotate && rotate_mismatch img.w img.h tgtW tgtH then rotate90_expand img else img

/-- Scale-to-fit factor (bt_printer.py:482-484): the smaller of the
width-ratio and the height-ratio. -/
def scale_to_fit (imgW imgH tgtW tgtH : Nat) : ℚ :=
  min ((tgtW : ℚ) / (imgW : ℚ)) ((tgtH : ℚ) / (imgH : ℚ))

/-- Centered-paste offsets (bt_printer.py:526-527):
`((target_width_dots - new_width) // 2, (target_height_dots - new_height) // 2)`. -/
def center_offsets (tgtW tgtH newW newH : Nat) : Nat × Nat :=
  ((tgtW - newW) / 2, (tgtH - newH) / 2)

/-! ### Final composition (`print_pdf`, bt_printer.py:494-528) -/

/-- Deep embedding of the PIL image expressions `print_pdf` builds after
scaling: `scaled` is the LANCZOS-resized source at `(new_width, new_height)`;
the constructors record `Image.new`, `paste`, `crop` and `resize` calls with
their literal arguments. -/
inductive PImage where
  | scaled : PImage
  | blank (w h : Nat) (color : Nat) : PImage
  | paste (base : PImage) (img : PImage) (x y : Nat) : PImage
  | crop (img : PImage) (l t r b : ℤ) : PImage
  | resize (img : PImage) (w h : Nat) : PImage
deriving DecidableEq

/-- Scaled image pasted centered onto a fresh white target-dot canvas
(bt_printer.py:507-509 and 519-528 build exactly this expression). -/
def centered_canvas (tgtW tgtH newW newH : Nat) : PImage :=
  PImage.paste (PImage.blank tgtW tgtH 255) PImage.scaled
    ((tgtW - newW) / 2) ((tgtH - newH) / 2)

/-- Final image computation of `print_pdf` after scaling
(bt_printer.py:494-528): with manual crop coordinates, clamp the SAME
(unscaled) coordinates to the target-dot bounds and, if the region still has
positive area, crop the composed centered canvas to it and stretch-resize the
result back to the full target dimensions; otherwise (and without manual
coordinates) use the centered canvas itself. -/
def compose_final (manualCoords : Option (ℤ × ℤ × ℤ × ℤ))
    (tgtW tgtH newW newH : Nat) : PImage :=
  match manualCoords with
  | some c =>
      let lc := max 0 (min c.1 (tgtW : ℤ))
      let rc := max 0 (min c.2.2.1 (tgtW : ℤ))
      let tc := max 0 (min c.2.1 (tgtH : ℤ))
      let bc := max 0 (min c.2.2.2 (tgtH : ℤ))
      if rc > lc ∧ bc > tc then
        PImage.resize (PImage.crop (centered_canvas tgtW tgtH newW newH) lc tc rc bc) tgtW tgtH
      else centered_canvas tgtW tgtH newW newH
  | none => centered_canvas tgtW tgtH newW newH

/-! ### Helper lemmas for the encoder claims -/

theorem bitmap_byte_background (w row c : Nat) :
    bitmap_byte (fun _ _ => 255) w row c = 0 := by
  rw [bitmap_byte_eq_spec]
  unfold bitmap_byte_spec ink_bit
  norm_num

theorem bitmap_data_background (w h : Nat) :
    bitmap_data (fun _ _ => 255) w h = List.replicate (width_bytes w * h) 0 := by
  induction h with
  | zero => simp [bitmap_data]
  | succ n ih =>
      rw [bitmap_data_succ, ih]
      have hmap : (List.range (width_bytes w)).map
          (fun byteCol => bitmap_byte (fun _ _ => 255) w n byteCol) =
          List.replicate (width_bytes w) 0 := by
        simp [bitmap_byte_background]
      rw [hmap, ← List.replicate_add]
      have harith : width_bytes w * n + width_bytes w = width_bytes w * (n + 1) := by ring
      rw [harith]

set_option maxHeartbeats 1000000 in
theorem bitmap_byte_all_ink (w col : Nat) (hcol : col < width_bytes w) (row : Nat) :
    bitmap_byte (fun _ _ => 0) w row col =
      if 8 * (col + 1) ≤ w then 255 else 256 - 2 ^ (8 - w % 8) := by
  rw [bitmap_byte_eq_spec]
  unfold bitmap_byte_spec ink_bit
  have hlt : col * 8 < w := by
    unfold width_bytes at hcol
    omega
  by_cases hfull : 8 * (col + 1) ≤ w
  · rw [if_pos hfull]
    have c0 : col * 8 + 0 < w := by omega
    have c1 : col * 8 + 1 < w := by omega
    have c2 : col * 8 + 2 < w := by omega
    have c3 : col * 8 + 3 < w := by omega
    have c4 : col * 8 + 4 < w := by omega
    have c5 : col * 8 + 5 < w := by omega
    have c6 : col * 8 + 6 < w := by omega
    have c7 : col * 8 + 7 < w := by omega
    simp [hlt, c0, c1, c2, c3, c4, c5, c6, c7]
  · rw [if_neg hfull]
    obtain ⟨r, hrw⟩ : ∃ r, w = col * 8 + r := ⟨w - col * 8, by omega⟩
    have hr1 : 1 ≤ r := by omega
    have hr7 : r ≤ 7 := by omega
    subst hrw
    have hmod : (col * 8 + r) % 8 = r := by omega
    rw [hmod]
    simp only [Nat.add_lt_add_iff_left]
    interval_cases r <;> norm_num

/-! ### Claim C2 -/

/-- C2: the encoder produces exactly ceil(w/8) bytes per row (`width_bytes w`
is the unique value with w ≤ 8·wb < w+8) and `width_bytes w * h` bytes total;
the byte at row-major position `(row, col)` is the MSB-first sum of
per-pixel contributions, a bit being 1 exactly for an in-row ink (black,
PIL value 0) pixel; an all-background (255) image encodes to all-zero bytes;
an all-ink image encodes to all-0xFF bytes except that the trailing unused
bits of each row's last byte are 0 when w % 8 ≠ 0. -/
theorem C2_bitmap_encoding (px : Nat → Nat → Nat) (w h : Nat) :
    (bitmap_data px w h).length = width_bytes w * h ∧
    (w ≤ 8 * width_bytes w ∧ 8 * width_bytes w < w + 8) ∧
    (∀ row col, row < h → col < width_bytes w →
      (bitmap_data px w h)[row * width_bytes w + col]? =
        some (bitmap_byte_spec px w row col)) ∧
    bitmap_data (fun _ _ => 255) w h = List.replicate (width_bytes w * h) 0 ∧
    (∀ row col, col < width_bytes w →
      bitmap_byte (fun _ _ => 0) w row col =
        if 8 * (col + 1) ≤ w then 255 else 256 - 2 ^ (8 - w % 8)) := by
  refine ⟨bitmap_data_length px w h, ⟨?_, ?_⟩, ?_, bitmap_data_background w h, ?_⟩
  · unfold width_bytes; omega
  · unfold width_bytes; omega
  · intro row col hr hc
    rw [bitmap_data_get px w h row col hr hc, bitmap_byte_eq_spec]
  · intro row col hc
    exact bitmap_byte_all_ink w col hc row

/-- Witness for C2 at w = 9, h = 2 on an all-ink image: the per-index clause
and the all-ink clause evaluated at concrete inputs (the last byte of a
9-pixel row is 0x80: one ink bit, seven forced-zero trailing bits). -/
theorem C2_bitmap_encoding_witness :
    (bitmap_data (fun _ _ => 0) 9 2)[1 * width_bytes 9 + 1]? =
      some (bitmap_byte_spec (fun _ _ => 0) 9 1 1) ∧
    bitmap_byte (fun _ _ => 0) 9 0 1 = 128 := by
  have H := C2_bitmap_encoding (fun _ _ => 0) 9 2
  refine ⟨H.2.2.1 1 1 (by decide) (by decide), ?_⟩
  rw [H.2.2.2.2 0 1 (by decide)]
  decide

/-! ### Claim C3 -/

/-- C3 counterexample: the code truncates (Python `int`), it does not round:
for the height axis, 152 mm at 203 dpi yields 1214 in the code while
round(152·203/25.4) = 1215; and the claim's concrete dots (808, 1216) differ
from the code's (807, 1214) on both axes. -/
theorem C3_counterexample :
    target_dots 152 203 = 1214 ∧
    target_dots_round 152 203 = 1215 ∧
    target_dots 152 203 ≠ target_dots_round 152 203 ∧
    (target_dots 101 203, target_dots 152 203) ≠ ((808 : ℤ), (1216 : ℤ)) := by
  have h1 := target_dots_152_203
  have h2 : target_dots_round 152 203 = 1215 := by
    unfold target_dots_round
    rw [round_eq, Int.floor_eq_iff]
    norm_num
  refine ⟨h1, h2, by rw [h1, h2]; decide, ?_⟩
  rw [target_dots_101_203, h1]
  decide

/-- C3 (amended): for strictly positive mm and dpi the code computes the floor
(Python `int` truncation, which equals the floor on positive values) of
mm·dpi/25.4 on each axis; in particular a 101×152 mm label at 203 dpi maps to
(807, 1214) target dots. -/
theorem C3_amended_truncated_dots (mm dpi : ℤ) (hm : 0 < mm) (hd : 0 < dpi) :
    target_dots mm dpi = ⌊(mm : ℚ) * (dpi : ℚ) / (254 / 10)⌋ ∧
    target_dots 101 203 = 807 ∧ target_dots 152 203 = 1214 := by
  refine ⟨?_, target_dots_101_203, target_dots_152_203⟩
  unfold target_dots
  apply pyInt_eq_floor
  have hm2 : (0 : ℚ) < (mm : ℚ) := by exact_mod_cast hm
  have hd2 : (0 : ℚ) < (dpi : ℚ) := by exact_mod_cast hd
  positivity

/-- Witness for the amended C3 at mm = 101, dpi = 203. -/
theorem C3_amended_truncated_dots_witness :
    target_dots 101 203 = ⌊((101 : ℤ) : ℚ) * ((203 : ℤ) : ℚ) / (254 / 10)⌋ ∧
    target_dots 101 203 = 807 :=
  ⟨(C3_amended_truncated_dots 101 203 (by norm_num) (by norm_num)).1,
   (C3_amended_truncated_dots 101 203 (by norm_num) (by norm_num)).2.1⟩

/-! ### Claim C4 -/

/-- C4 counterexample: for the input consisting of one space — a non-empty
line — the built command contains no TEXT line at all (it equals the bare
header + PRINT command): the guard at bt_printer.py:333 skips every
whitespace-only line, not only empty ones. -/
theorem C4_counterexample :
    print_label_tspl_cmd (chars " ") 40 30 2 (chars "2") 10 10 =
      chars "SIZE 40 mm, 30 mm\nGAP 2 mm, 0 mm\nDIRECTION 1\nCLS\nPRINT 1\n\n" ∧
    ((splitNL (chars " ")).filter (fun l => ! l.isEmpty)).length = 1 ∧
    print_label_tspl_cmd (chars " ") 40 30 2 (chars "2") 10 10 ≠
      chars "SIZE 40 mm, 30 mm\nGAP 2 mm, 0 mm\nDIRECTION 1\nCLS\nTEXT 10,10,\"2\",0,1,1,\" \"\nPRINT 1\n\n" :=
  ⟨by decide, by decide, by decide⟩

/-- C4 (amended): the built command is exactly the SIZE, GAP, DIRECTION 1 and
CLS lines, each LF-terminated, then one
`TEXT {x},{y+40·i},"{font}",0,1,1,"{escaped line}"` line per input line that
contains a non-whitespace character (whitespace-only lines are skipped), the
i-th emitted line at vertical position y + 40·i with embedded double quotes
escaped as backslash-quote, then `PRINT 1`, then one trailing blank line. -/
theorem C4_amended_command_format (text font : List Char) (labelW labelH gap x y : Nat) :
    print_label_tspl_cmd text labelW labelH gap font x y =
      chars "SIZE " ++ natChars labelW ++ chars " mm, " ++ natChars labelH ++ chars " mm\n" ++
      chars "GAP " ++ natChars gap ++ chars " mm, 0 mm\n" ++
      chars "DIRECTION 1\n" ++ chars "CLS\n" ++
      spec_text_block font x y ((splitNL text).filter keepLine) ++
      chars "PRINT 1\n" ++ chars "\n" := by
  unfold print_label_tspl_cmd
  rw [tspl_text_body_eq]

/-! ### Claim C1 -/

/-- C1 (code bug): with a healthy transport the orchestrator does send the
header text, the binary payload and the PRINT command as three sequential
writes in that order — but when the first write fails, the remaining writes
are still attempted (the two later writes land, with the header missing) and
the call still returns success, contradicting the claim and the function's
own docstring ("True if successful, False otherwise"): the three send results
at bt_printer.py:852-860 are discarded. -/
theorem C1_failed_write_not_aborted :
    (print_image_tspl okState (fun _ _ => 0) 8 1 101 152 2 0 0).2.sent =
      [Payload.text (bitmap_header_cmd 101 152 2 0 0 (width_bytes 8) 1),
       Payload.bin (bitmap_data (fun _ _ => 0) 8 1),
       Payload.text (chars "PRINT 1\n\n")] ∧
    (print_image_tspl failFirstWriteState (fun _ _ => 0) 8 1 101 152 2 0 0).1 = true ∧
    (print_image_tspl failFirstWriteState (fun _ _ => 0) 8 1 101 152 2 0 0).2.attempts = 3 ∧
    (print_image_tspl failFirstWriteState (fun _ _ => 0) 8 1 101 152 2 0 0).2.sent =
      [Payload.bin (bitmap_data (fun _ _ => 0) 8 1),
       Payload.text (chars "PRINT 1\n\n")] :=
  ⟨by decide, rfl, rfl, by decide⟩

/-! ### Claim C5 -/

/-- C5 counterexample: a print entry point returns success while the serial
handle is still open — `print_label_tspl` (like every print method of
`BluetoothPrinter`) never closes the connection. -/
theorem C5_counterexample :
    (print_label_tspl okState (chars "HELLO") 40 30 2 (chars "2") 10 10).1 = true ∧
    (print_label_tspl okState (chars "HELLO") 40 30 2 (chars "2") 10 10).2.connected = true :=
  ⟨rfl, rfl⟩

/-- C5 (amended): the print entry points leave the connection state exactly as
they found it (open stays open, closed stays closed) on every exit path; the
connection is closed only by an explicit `disconnect` — which the CLI `finally`
block and the context-manager `__exit__` invoke — and `disconnect` always
leaves the state closed and is a no-op when already closed. -/
theorem C5_amended_no_close_on_exit (s : PrinterState) (text font : List Char)
    (labelW labelH gap x y : Nat) (px : Nat → Nat → Nat) (w h : Nat) :
    (print_label_tspl s text labelW labelH gap font x y).2.connected = s.connected ∧
    (print_image_tspl s px w h labelW labelH gap x y).2.connected = s.connected ∧
    (disconnect s).connected = false ∧
    (s.connected = false → disconnect s = s) := by
  refine ⟨?_, ?_, ?_, ?_⟩
  · unfold print_label_tspl send_text
    by_cases hc : is_connected s = true
    · simp [hc, write_payload_connected]
    · simp [hc]
  · unfold print_image_tspl send_text send_raw
    by_cases hc : is_connected s = true
    · simp [hc, write_payload_connected]
    · simp [hc]
  · unfold disconnect is_connected
    by_cases hc : s.connected = true <;> simp [hc]
  · intro hc
    unfold disconnect is_connected
    simp [hc]

/-! ### Claim C6 -/

/-- C6 counterexample: `send_raw` returns the boolean success flag `True`, not
the number of bytes written: two successful writes of different byte counts
return identical values (Python's `True` equals the integer 1, never 3). -/
theorem C6_counterexample :
    (send_raw okState [1, 2, 3]).1 = true ∧
    (send_raw okState [1, 2, 3]).1 = (send_raw okState [9]).1 ∧
    ([1, 2, 3] : List Nat).length ≠ ([9] : List Nat).length :=
  ⟨rfl, rfl, by decide⟩

/-- C6 (amended): `send_raw` called while Disconnected returns failure without
performing any write or flush; called while Connected it writes all supplied
bytes as one transport write immediately followed by a flush and returns
`True` (a boolean success flag, not a byte count); a transport error during
the write yields `False` with nothing recorded as sent. -/
theorem C6_amended_send_raw (s : PrinterState) (data : List Nat) :
    (is_connected s = false → send_raw s data = (false, s)) ∧
    (is_connected s = true → s.failAt s.attempts = false →
      send_raw s data =
        (true, { s with attempts := s.attempts + 1,
                        sent := s.sent ++ [Payload.bin data],
                        flushes := s.flushes + 1 })) ∧
    (is_connected s = true → s.failAt s.attempts = true →
      send_raw s data = (false, { s with attempts := s.attempts + 1 })) := by
  refine ⟨fun hc => ?_, fun hc hf => ?_, fun hc hf => ?_⟩
  · simp [send_raw, write_payload, hc]
  · simp [send_raw, write_payload, hc, hf]
  · simp [send_raw, write_payload, hc, hf]

/-- Witness for the amended C6: a disconnected call fails and writes nothing;
a connected call succeeds recording the payload and a flush. -/
theorem C6_amended_send_raw_witness :
    send_raw closedState [1, 2] = (false, closedState) ∧
    send_raw okState [1, 2] =
      (true, { okState with attempts := 1,
                            sent := [Payload.bin [1, 2]],
                            flushes := 1 }) :=
  ⟨(C6_amended_send_raw closedState [1, 2]).1 rfl,
   (C6_amended_send_raw okState [1, 2]).2.1 rfl rfl⟩

/-! ### Claim C7 -/

/-- C7: `connect` is idempotent: invoked on an already-open connection it
returns success with the state unchanged — no new transport open — and from a
fresh state two consecutive `connect` calls both succeed with exactly one
underlying open. -/
theorem connect_of_connected (u : PrinterState) (hu : is_connected u = true) :
    connect u = (true, u) := by
  unfold connect
  rw [if_pos hu]

theorem C7_connect_idempotent (s t : PrinterState)
    (hs : is_connected s = true) (ht : is_connected t = false)
    (hok : t.openOk t.opens = true) :
    connect s = (true, s) ∧
    (connect t).1 = true ∧
    (connect (connect t).2).1 = true ∧
    (connect (connect t).2).2 = (connect t).2 ∧
    (connect (connect t).2).2.opens = t.opens + 1 := by
  have h2 : connect t = (true, { t with connected := true, opens := t.opens + 1 }) := by
    unfold connect
    rw [if_neg (by simp [ht]), if_pos hok]
  have h3 : is_connected (connect t).2 = true := by rw [h2]; rfl
  have h4 := connect_of_connected _ h3
  refine ⟨connect_of_connected s hs, by rw [h2], by rw [h4], by rw [h4], ?_⟩
  rw [h4, h2]

/-- Witness for C7: a connected state is left untouched, and two consecutive
connects from a fresh state leave the open count at one. -/
theorem C7_connect_idempotent_witness :
    connect okState = (true, okState) ∧
    (connect (connect closedState).2).2.opens = 1 := by
  have H := C7_connect_idempotent okState closedState rfl rfl rfl
  exact ⟨H.1, H.2.2.2.2⟩

/-! ### Claim C8 -/

/-- C8: a supplied manual crop region takes precedence over auto-crop ('elif'
at bt_printer.py:451); each coordinate, given in the 150-DPI preview space,
is rescaled by exactly workingDPI/150 (= 300/150 = 2) before clamping; the
clamped region always lies inside the working image bounds — out-of-bounds
coordinates clamp, they never error — and the crop is applied exactly when
the clamped region has positive area. -/
theorem C8_manual_crop_rescale (c : ℤ × ℤ × ℤ × ℤ) (imgW imgH : Nat) (autoCrop : Bool) :
    crop_step (some c) autoCrop imgW imgH =
      CropChoice.manual (manual_crop_scaled c imgW imgH) ∧
    crop_scale_factor = (render_dpi : ℚ) / 150 ∧ render_dpi = 300 ∧
    (pyInt ((c.1 : ℚ) * crop_scale_factor) = 2 * c.1 ∧
     pyInt ((c.2.1 : ℚ) * crop_scale_factor) = 2 * c.2.1 ∧
     pyInt ((c.2.2.1 : ℚ) * crop_scale_factor) = 2 * c.2.2.1 ∧
     pyInt ((c.2.2.2 : ℚ) * crop_scale_factor) = 2 * c.2.2.2) ∧
    manual_crop_scaled c imgW imgH =
      (let lc := max 0 (min (2 * c.1) (imgW : ℤ))
       let rc := max 0 (min (2 * c.2.2.1) (imgW : ℤ))
       let tc := max 0 (min (2 * c.2.1) (imgH : ℤ))
       let bc := max 0 (min (2 * c.2.2.2) (imgH : ℤ))
       if rc > lc ∧ bc > tc then some ⟨lc, tc, rc, bc⟩ else none) ∧
    (∀ box, manual_crop_scaled c imgW imgH = some box →
      0 ≤ box.left ∧ box.left < box.right ∧ box.right ≤ (imgW : ℤ) ∧
      0 ≤ box.top ∧ box.top < box.bottom ∧ box.bottom ≤ (imgH : ℤ)) := by
  refine ⟨rfl, rfl, rfl,
    ⟨pyInt_double c.1, pyInt_double c.2.1, pyInt_double c.2.2.1, pyInt_double c.2.2.2⟩,
    by simp only [manual_crop_scaled, pyInt_double], ?_⟩
  intro box hb
  simp only [manual_crop_scaled, pyInt_double] at hb
  split_ifs at hb with hcond
  injection hb with hb2
  subst hb2
  exact ⟨le_max_left _ _, hcond.1, max_le (Int.natCast_nonneg _) (min_le_right _ _),
    le_max_left _ _, hcond.2, max_le (Int.natCast_nonneg _) (min_le_right _ _)⟩

/-- Witness for C8: coordinates (-5, 3, 1000, 7) on a 600×10 working image
scale to (-10, 6, 2000, 14) and clamp to the in-bounds region (0, 6, 600, 10). -/
theorem C8_manual_crop_rescale_witness :
    manual_crop_scaled (-5, 3, 1000, 7) 600 10 = some ⟨0, 6, 600, 10⟩ ∧
    (0 : ℤ) ≤ 0 ∧ (0 : ℤ) < 600 ∧ (600 : ℤ) ≤ ((600 : Nat) : ℤ) ∧
    (0 : ℤ) ≤ 6 ∧ (6 : ℤ) < 10 ∧ (10 : ℤ) ≤ ((10 : Nat) : ℤ) := by
  have hbox : manual_crop_scaled (-5, 3, 1000, 7) 600 10 = some ⟨0, 6, 600, 10⟩ := by
    simp only [manual_crop_scaled, pyInt_double]
    decide
  have H := (C8_manual_crop_rescale (-5, 3, 1000, 7) 600 10 true).2.2.2.2.2
    ⟨0, 6, 600, 10⟩ hbox
  exact ⟨hbox, H.1, H.2.1, H.2.2.1, H.2.2.2.1, H.2.2.2.2.1, H.2.2.2.2.2⟩

/-! ### Claim C9 -/

theorem scale_to_fit_612_792 : scale_to_fit 612 792 807 1214 = (807 : ℚ) / 612 := by
  unfold scale_to_fit
  rw [min_eq_left (by norm_num)]
  norm_num

/-- C9 counterexample: with the 101×152 mm / 203 dpi label the code's target
dots are (807, 1214) — see C3 — so the 612×792 source is scaled by
min(807/612, 1214/792) = 807/612, not by the claimed min(808/612, 1216/792). -/
theorem C9_counterexample :
    target_dots 101 203 = 807 ∧ target_dots 152 203 = 1214 ∧
    scale_to_fit 612 792 807 1214 = (807 : ℚ) / 612 ∧
    scale_to_fit 612 792 807 1214 ≠ min ((808 : ℚ) / 612) ((1216 : ℚ) / 792) := by
  have hmin2 : min ((808 : ℚ) / 612) ((1216 : ℚ) / 792) = (808 : ℚ) / 612 :=
    min_eq_left (by norm_num)
  refine ⟨target_dots_101_203, target_dots_152_203, scale_to_fit_612_792, ?_⟩
  rw [scale_to_fit_612_792, hmin2]
  norm_num

/-- C9 (amended): auto-rotate leaves the image object unchanged exactly when
the source orientation (w > h ⇒ landscape) already matches the label's target
orientation, and rotates 90° with canvas expansion (dimensions swap) exactly
when they differ; end to end, a 612×792 source with the 101×152 mm / 203 dpi
label (target dots (807, 1214), both portrait) is not rotated, is scaled by
min(807/612, 1214/792) = 807/612 to 807×1044, and is pasted centered at
offsets (0, 85). -/
theorem C9_amended_auto_rotate (ar : Bool) (img : Raster) (tgtW tgtH : Nat) :
    (rotate_mismatch img.w img.h tgtW tgtH = false →
      auto_rotate_step ar img tgtW tgtH = img) ∧
    (ar = false → auto_rotate_step ar img tgtW tgtH = img) ∧
    (ar = true → rotate_mismatch img.w img.h tgtW tgtH = true →
      auto_rotate_step ar img tgtW tgtH = rotate90_expand img ∧
      (auto_rotate_step ar img tgtW tgtH).w = img.h ∧
      (auto_rotate_step ar img tgtW tgtH).h = img.w) ∧
    (target_dots 101 203 = 807 ∧ target_dots 152 203 = 1214 ∧
     rotate_mismatch 612 792 807 1214 = false ∧
     scale_to_fit 612 792 807 1214 = (807 : ℚ) / 612 ∧
     pyInt ((612 : ℚ) * scale_to_fit 612 792 807 1214) = 807 ∧
     pyInt ((792 : ℚ) * scale_to_fit 612 792 807 1214) = 1044 ∧
     center_offsets 807 1214 807 1044 = (0, 85)) := by
  refine ⟨?_, ?_, ?_, target_dots_101_203, target_dots_152_203, by decide,
    scale_to_fit_612_792, ?_, ?_, by decide⟩
  · intro hmm
    unfold auto_rotate_step
    rw [hmm]
    simp
  · intro ha
    unfold auto_rotate_step
    rw [ha]
    simp
  · intro ha hm
    have hstep : auto_rotate_step ar img tgtW tgtH = rotate90_expand img := by
      unfold auto_rotate_step
      rw [ha, hm]
      rfl
    exact ⟨hstep, by rw [hstep]; rfl, by rw [hstep]; rfl⟩
  · rw [scale_to_fit_612_792]
    have hexact : (612 : ℚ) * ((807 : ℚ) / 612) = ((807 : ℤ) : ℚ) := by norm_num
    rw [hexact, pyInt_intCast]
  · rw [scale_to_fit_612_792]
    rw [pyInt_eq_floor _ (by norm_num), Int.floor_eq_iff]
    norm_num

/-- Witness for the amended C9: the 612×792 source is left unchanged by the
auto-rotate step against the (807, 1214) target. -/
theorem C9_amended_auto_rotate_witness :
    auto_rotate_step true { w := 612, h := 792, px := fun _ _ => 0 } 807 1214 =
      { w := 612, h := 792, px := fun _ _ => 0 } :=
  (C9_amended_auto_rotate true { w := 612, h := 792, px := fun _ _ => 0 } 807 1214).1
    (by decide)

/-! ### Claim C10 -/

/-- C10: when manual crop coordinates are supplied to the PDF print operation,
they are applied a second time after scaling and composition: the SAME
coordinates, unscaled this time, are clamped to the target-dot canvas bounds
(the clamps always land inside the canvas), and whenever the clamped region
still has positive area the final raster is the composed centered canvas
cropped to that region and stretch-resized back to the full target dot
dimensions — not the scaled centered image itself; a degenerate clamped
region falls back to the centered canvas. -/
theorem C10_second_manual_crop (c : ℤ × ℤ × ℤ × ℤ) (tgtW tgtH newW newH : Nat) :
    (max 0 (min c.2.2.1 (tgtW : ℤ)) > max 0 (min c.1 (tgtW : ℤ)) ∧
     max 0 (min c.2.2.2 (tgtH : ℤ)) > max 0 (min c.2.1 (tgtH : ℤ)) →
      compose_final (some c) tgtW tgtH newW newH =
        PImage.resize
          (PImage.crop (centered_canvas tgtW tgtH newW newH)
            (max 0 (min c.1 (tgtW : ℤ))) (max 0 (min c.2.1 (tgtH : ℤ)))
            (max 0 (min c.2.2.1 (tgtW : ℤ))) (max 0 (min c.2.2.2 (tgtH : ℤ))))
          tgtW tgtH ∧
      compose_final (some c) tgtW tgtH newW newH ≠ centered_canvas tgtW tgtH newW newH) ∧
    (¬ (max 0 (min c.2.2.1 (tgtW : ℤ)) > max 0 (min c.1 (tgtW : ℤ)) ∧
        max 0 (min c.2.2.2 (tgtH : ℤ)) > max 0 (min c.2.1 (tgtH : ℤ))) →
      compose_final (some c) tgtW tgtH newW newH = centered_canvas tgtW tgtH newW newH) ∧
    (0 ≤ max 0 (min c.1 (tgtW : ℤ)) ∧ max 0 (min c.1 (tgtW : ℤ)) ≤ (tgtW : ℤ) ∧
     0 ≤ max 0 (min c.2.2.1 (tgtW : ℤ)) ∧ max 0 (min c.2.2.1 (tgtW : ℤ)) ≤ (tgtW : ℤ) ∧
     0 ≤ max 0 (min c.2.1 (tgtH : ℤ)) ∧ max 0 (min c.2.1 (tgtH : ℤ)) ≤ (tgtH : ℤ) ∧
     0 ≤ max 0 (min c.2.2.2 (tgtH : ℤ)) ∧ max 0 (min c.2.2.2 (tgtH : ℤ)) ≤ (tgtH : ℤ)) := by
  refine ⟨fun hcond => ⟨?_, ?_⟩, fun hcond => ?_,
    le_max_left _ _, max_le (Int.natCast_nonneg _) (min_le_right _ _),
    le_max_left _ _, max_le (Int.natCast_nonneg _) (min_le_right _ _),
    le_max_left _ _, max_le (Int.natCast_nonneg _) (min_le_right _ _),
    le_max_left _ _, max_le (Int.natCast_nonneg _) (min_le_right _ _)⟩
  · simp only [compose_final]
    rw [if_pos hcond]
  · simp only [compose_final]
    rw [if_pos hcond]
    intro h
    simp only [centered_canvas] at h
    exact PImage.noConfusion h
  · simp only [compose_final]
    rw [if_neg hcond]

/-- Witness for C10: concrete coordinates (10, 10, 100, 100) on a 200×300
canvas with a 150×250 scaled image: the final image is the stretched crop of
the centered canvas, and differs from the centered canvas. -/
theorem C10_second_manual_crop_witness :
    compose_final (some (10, 10, 100, 100)) 200 300 150 250 =
      PImage.resize
        (PImage.crop (centered_canvas 200 300 150 250)
          (max 0 (min 10 (200 : ℤ))) (max 0 (min 10 (300 : ℤ)))
          (max 0 (min 100 (200 : ℤ))) (max 0 (min 100 (300 : ℤ)))) 200 300 ∧
    compose_final (some (10, 10, 100, 100)) 200 300 150 250 ≠
      centered_canvas 200 300 150 250 := by
  have H := (C10_second_manual_crop (10, 10, 100, 100) 200 300 150 250).1 (by decide)
  exact ⟨H.1, H.2⟩

/-- Witness for the amended C5 at concrete states: a print call leaves the
open connection open, `disconnect` closes it, and `disconnect` is a no-op on
a closed state. -/
theorem C5_amended_no_close_on_exit_witness :
    (print_label_tspl okState (chars "A") 40 30 2 (chars "2") 10 10).2.connected =
      okState.connected ∧
    (disconnect okState).connected = false ∧
    disconnect closedState = closedState := by
  have H := C5_amended_no_close_on_exit okState (chars "A") (chars "2")
    40 30 2 10 10 (fun _ _ => 0) 8 1
  have H2 := C5_amended_no_close_on_exit closedState (chars "A") (chars "2")
    40 30 2 10 10 (fun _ _ => 0) 8 1
  exact ⟨H.1, H.2.2.1, H2.2.2.2 rfl⟩

end PrintToBT
